import Mathlib

/-!
Verification of the BarcodePrintAuto order-resolution and PDF-assembly core.

The development shallowly embeds the two core modules:

* `pdf_processor.py` — `PDFProcessor.find_pdf_by_sku` and `PDFProcessor.merge_pdfs`.
  A directory is modelled as the list of file names it contains (in iteration
  order); reading a PDF file is modelled by a function `read : String →
  Option Nat` giving the page count of a file (`none` models a file that
  fails to parse).  The assembled output document is modelled as the list of
  appended pages, a page being identified by the source file name and the
  page index taken from it.  Raising `PDFProcessorError` is modelled by
  `Except.error`; returning an `Except.error` also models that no output
  file is written (in the source the raise happens before the output file is
  opened).

* `ozon_api.py` — `search_supply_orders`, `get_supply_order_details`,
  `get_bundle_items` and `get_supply_items_by_order_number`.  The remote
  system is a parameter: a `Remote` maps each request to the parsed JSON
  response, a response being modelled by `ShapedResp` (the expected field at
  top level, the expected field under a `result` wrapper, and the list of
  top-level keys, which the code reports in shape-error messages).
  `OzonAPIError` raises are modelled by the structured `ResolutionError`
  type, whose `badShape` constructor carries the top-level keys that appear
  in the corresponding message.

Items are Python dicts; the fields read by the core (`sku`, `quantity`,
`name`) are modelled with `Option` for the ones the code accesses with
`dict.get` defaults.  All claims concern items whose `sku` is present, so
`sku` is modelled as always present.
-/

namespace BPA

/-- One item dict as consumed by the resolver and the assembler.  `quantity`
and `name` are `Option` because the code reads them with `item.get(...)`
defaults (`merge_pdfs` uses `get('quantity', 1)` and `get('name', ...)`,
the resolver sums `get('quantity', 0)`). -/
structure Item where
  sku : Nat
  quantity : Option Nat
  name : Option String
  deriving DecidableEq, Repr

/-! ### Character-list string helpers

`pathlib` operations (`exists`, `glob('*.pdf')`, `stem`, substring test) are
modelled over the character data of the names involved. -/

/-- Boolean test that `p` begins the list `l`. -/
def listStartsWith : List Char → List Char → Bool
  | [], _ => true
  | _ :: _, [] => false
  | a :: as, b :: bs => a == b && listStartsWith as bs

/-- Boolean test that `n` occurs inside `h` as a contiguous run
(Python `n in h`). -/
def listInside (n : List Char) : List Char → Bool
  | [] => listStartsWith n []
  | c :: hs => listStartsWith n (c :: hs) || listInside n hs

/-- Python `needle in hay` on strings. -/
def strInside (needle hay : String) : Bool :=
  listInside needle.data hay.data

/-- Boolean test that the string `s` ends with `suf` (used to model the
`'*.pdf'` glob pattern on a file name). -/
def strEndsWith (s suf : String) : Bool :=
  listStartsWith suf.data.reverse s.data.reverse

/-- `pathlib.Path.stem` of a name that matched `'*.pdf'`: the name without
its final `.pdf` suffix. -/
def pdfStem (s : String) : String :=
  ⟨s.data.dropLast.dropLast.dropLast.dropLast⟩

/-! ### PDFProcessor.find_pdf_by_sku -/

/-- The exact candidate names tried by `find_pdf_by_sku`, in source order. -/
def possibleNames (sku : Nat) : List String :=
  [toString sku ++ ".pdf", "OZN" ++ toString sku ++ ".pdf",
   toString sku ++ "_barcode.pdf"]

/-- The `for name in possible_names` loop: first candidate that exists in the
directory. -/
def firstExisting (search_dir : List String) : List String → Option String
  | [] => none
  | n :: ns => if search_dir.contains n then some n else firstExisting search_dir ns

/-- The files of the directory matching `glob('*.pdf')`, in iteration
order. -/
def globPdf (search_dir : List String) : List String :=
  search_dir.filter (fun f => strEndsWith f ".pdf")

/-- `PDFProcessor.find_pdf_by_sku` (`src/pdf_processor.py:75`): try the three
exact candidate names, then fall back to the first `*.pdf` file whose stem
contains the decimal form of the sku as a substring; `none` if nothing
matches. -/
def find_pdf_by_sku (sku : Nat) (search_dir : List String) : Option String :=
  match firstExisting search_dir (possibleNames sku) with
  | some name => some name
  | none => (globPdf search_dir).find? (fun f => strInside (toString sku) (pdfStem f))

/-- Modelled from the spec (§4.2 `locate`): the four-rule first-match-wins
resolution policy, written following the spec text, to be compared with the
source-derived `find_pdf_by_sku`. -/
def locateSpec (sku : Nat) (search_dir : List String) : Option String :=
  if search_dir.contains (toString sku ++ ".pdf") then
    some (toString sku ++ ".pdf")
  else if search_dir.contains ("OZN" ++ toString sku ++ ".pdf") then
    some ("OZN" ++ toString sku ++ ".pdf")
  else if search_dir.contains (toString sku ++ "_barcode.pdf") then
    some (toString sku ++ "_barcode.pdf")
  else
    (search_dir.filter (fun f => strEndsWith f ".pdf")).find?
      (fun f => strInside (toString sku) (pdfStem f))

/-- Claim C6: `find_pdf_by_sku` tries exactly `{sku}.pdf`, `OZN{sku}.pdf`,
`{sku}_barcode.pdf` in that order returning the first that exists, then falls
back to the first `*.pdf` entry whose base name contains the decimal sku as a
substring, and returns `none` (not an error) when no rule matches — i.e. it
coincides with the spec's four-rule policy on every input; in particular with
both `123.pdf` and `OZN123.pdf` present it returns `123.pdf`. -/
theorem find_pdf_by_sku_matches_locate_policy :
    (∀ (sku : Nat) (search_dir : List String),
      find_pdf_by_sku sku search_dir = locateSpec sku search_dir) ∧
    find_pdf_by_sku 123 ["123.pdf", "OZN123.pdf"] = some "123.pdf" := by
  constructor
  · intro sku search_dir
    simp only [find_pdf_by_sku, locateSpec, possibleNames, firstExisting, globPdf]
    by_cases h1 : (toString sku ++ ".pdf") ∈ search_dir <;>
      by_cases h2 : ("OZN" ++ toString sku ++ ".pdf") ∈ search_dir <;>
        by_cases h3 : (toString sku ++ "_barcode.pdf") ∈ search_dir <;>
          simp [h1, h2, h3]
  · decide

/-! ### PDFProcessor.merge_pdfs -/

/-- One entry of the `missing_pdfs` list of the merge stats. -/
structure MissingPdf where
  sku : Nat
  name : String
  quantity : Nat
  deriving DecidableEq, Repr

/-- The mutable state of the `merge_pdfs` loop: the `stats` dict plus the
`output_pdf` writer, the latter modelled as the list of appended pages, a
page being the pair (source file name, page index in that file). -/
structure MergeState where
  total_items : Nat
  total_pages : Nat
  processed_items : Nat
  skipped_items : Nat
  missing_pdfs : List MissingPdf
  pages : List (String × Nat)
  deriving DecidableEq, Repr

/-- `PDFProcessorError` as raised by `merge_pdfs`: the only raise reachable
in the merge model is the "Нет страниц для сохранения" one (the code's
wording of "no pages to save"). -/
inductive AssemblyError where
  | noPagesToSave
  deriving DecidableEq, Repr

/-- Default used by `item.get('name', 'Неизвестный товар')`. -/
def unknownName : String := "Неизвестный товар"

/-- `quantity = item.get('quantity', 1)` in `merge_pdfs`. -/
def mergeQuantity (item : Item) : Nat := item.quantity.getD 1

/-- `name = item.get('name', ...)` in `merge_pdfs`. -/
def mergeName (item : Item) : String := item.name.getD unknownName

/-- The `missing_pdfs` entry appended for an item whose PDF is not found. -/
def mkMissing (item : Item) : MissingPdf :=
  { sku := item.sku, name := mergeName item, quantity := mergeQuantity item }

/-- One iteration of the `for item in items` loop of `merge_pdfs`
(`src/pdf_processor.py:135`–`178`).  The `for i in range(quantity)` loop that
appends the first page `quantity` times and adds `quantity` to
`total_pages` is modelled by its net effect (`List.replicate`). -/
def mergeStep (pdf_dir : List String) (read : String → Option Nat)
    (stats : MergeState) (item : Item) : MergeState :=
  let quantity := mergeQuantity item
  match find_pdf_by_sku item.sku pdf_dir with
  | none =>
      { stats with skipped_items := stats.skipped_items + 1,
                   missing_pdfs := stats.missing_pdfs ++ [mkMissing item] }
  | some pdf_file =>
      match read pdf_file with
      | none =>
          { stats with skipped_items := stats.skipped_items + 1 }
      | some 0 =>
          { stats with skipped_items := stats.skipped_items + 1 }
      | some (_ + 1) =>
          { stats with
              pages := stats.pages ++ List.replicate quantity (pdf_file, 0),
              total_pages := stats.total_pages + quantity,
              processed_items := stats.processed_items + 1 }

/-- The initial `stats` dict of `merge_pdfs` (`total_items` is set to the
length of the input list up front and never changes). -/
def initState (items : List Item) : MergeState :=
  { total_items := items.length, total_pages := 0, processed_items := 0,
    skipped_items := 0, missing_pdfs := [], pages := [] }

/-- `PDFProcessor.merge_pdfs` (`src/pdf_processor.py:108`–`197`): run the
item loop from the initial stats, then raise when no page was produced,
otherwise write the output and return the stats.  `.error` models the raise
(no output file is written on that path: the raise precedes `open`). -/
def merge_pdfs (items : List Item) (pdf_dir : List String)
    (read : String → Option Nat) : Except AssemblyError MergeState :=
  let stats := items.foldl (mergeStep pdf_dir read) (initState items)
  if stats.total_pages = 0 then .error .noPagesToSave
  else .ok stats

/-! ### Outcome classification of one item, used to state the merge claims -/

/-- The item's PDF is not located (`find_pdf_by_sku` returns `None`). -/
def isMissingItem (pdf_dir : List String) (item : Item) : Bool :=
  (find_pdf_by_sku item.sku pdf_dir).isNone

/-- The item's PDF is located but unusable: it fails to parse or has zero
pages. -/
def isUnusableItem (pdf_dir : List String) (read : String → Option Nat)
    (item : Item) : Bool :=
  match find_pdf_by_sku item.sku pdf_dir with
  | none => false
  | some f =>
      match read f with
      | none => true
      | some 0 => true
      | some (_ + 1) => false

/-- The item's PDF is located and parses with at least one page. -/
def isUsableItem (pdf_dir : List String) (read : String → Option Nat)
    (item : Item) : Bool :=
  match find_pdf_by_sku item.sku pdf_dir with
  | none => false
  | some f =>
      match read f with
      | none => false
      | some 0 => false
      | some (_ + 1) => true

/-- Pages the item contributes to the output document: `quantity` copies of
page 0 of its located file when usable, nothing otherwise. -/
def pageContribution (pdf_dir : List String) (read : String → Option Nat)
    (item : Item) : List (String × Nat) :=
  match find_pdf_by_sku item.sku pdf_dir with
  | none => []
  | some f =>
      match read f with
      | none => []
      | some 0 => []
      | some (_ + 1) => List.replicate (mergeQuantity item) (f, 0)

/-- Page count the item contributes to `total_pages`. -/
def usableQuantity (pdf_dir : List String) (read : String → Option Nat)
    (item : Item) : Nat :=
  if isUsableItem pdf_dir read item then mergeQuantity item else 0

/-- Closed form of the `merge_pdfs` item loop from an arbitrary start
state. -/
theorem foldl_mergeStep_spec (pdf_dir : List String) (read : String → Option Nat) :
    ∀ (items : List Item) (st : MergeState),
      items.foldl (mergeStep pdf_dir read) st =
        { total_items := st.total_items,
          total_pages := st.total_pages + (items.map (usableQuantity pdf_dir read)).sum,
          processed_items := st.processed_items + items.countP (isUsableItem pdf_dir read),
          skipped_items := st.skipped_items + items.countP (fun it => !(isUsableItem pdf_dir read it)),
          missing_pdfs := st.missing_pdfs ++ (items.filter (isMissingItem pdf_dir)).map mkMissing,
          pages := st.pages ++ items.flatMap (pageContribution pdf_dir read) } := by
  intro items
  induction items with
  | nil => intro st; simp
  | cons it items ih =>
      intro st
      rw [List.foldl_cons, ih]
      rcases hf : find_pdf_by_sku it.sku pdf_dir with _ | f
      · simp [mergeStep, hf, isUsableItem, isMissingItem, pageContribution,
          usableQuantity, List.countP_cons, mkMissing]
        omega
      · rcases hr : read f with _ | n
        · simp [mergeStep, hf, hr, isUsableItem, isMissingItem, pageContribution,
            usableQuantity, List.countP_cons]
          omega
        · rcases n with _ | n
          · simp [mergeStep, hf, hr, isUsableItem, isMissingItem, pageContribution,
              usableQuantity, List.countP_cons]
            omega
          · simp [mergeStep, hf, hr, isUsableItem, isMissingItem, pageContribution,
              usableQuantity, List.countP_cons]
            omega

instance {ε α : Type} [DecidableEq ε] [DecidableEq α] : DecidableEq (Except ε α) := fun x y =>
  match x, y with
  | .ok a, .ok b =>
      if h : a = b then isTrue (by rw [h])
      else isFalse (fun hc => h (Except.ok.inj hc))
  | .error e, .error f =>
      if h : e = f then isTrue (by rw [h])
      else isFalse (fun hc => h (Except.error.inj hc))
  | .ok _, .error _ => isFalse (fun hc => Except.noConfusion hc)
  | .error _, .ok _ => isFalse (fun hc => Except.noConfusion hc)

/-- Inversion of a successful merge: the returned stats are the loop result
and the page total is positive. -/
theorem merge_pdfs_ok_elim {items : List Item} {pdf_dir : List String}
    {read : String → Option Nat} {st : MergeState}
    (h : merge_pdfs items pdf_dir read = .ok st) :
    st = items.foldl (mergeStep pdf_dir read) (initState items) ∧
      0 < st.total_pages := by
  unfold merge_pdfs at h
  by_cases hz : (items.foldl (mergeStep pdf_dir read) (initState items)).total_pages = 0
  · simp [hz] at h
  · simp [hz] at h
    subst h
    exact ⟨rfl, Nat.pos_of_ne_zero hz⟩

/-- A usable item is not a missing one. -/
theorem usable_not_missing {pdf_dir : List String} {read : String → Option Nat}
    {item : Item} (h : isUsableItem pdf_dir read item = true) :
    isMissingItem pdf_dir item = false := by
  unfold isUsableItem at h
  unfold isMissingItem
  rcases hf : find_pdf_by_sku item.sku pdf_dir with _ | f <;> simp [hf] at h ⊢

/-- The skip count splits into the missing-file items and the
located-but-unusable items. -/
theorem countP_skipped_split (pdf_dir : List String) (read : String → Option Nat) :
    ∀ (items : List Item),
      items.countP (fun it => !(isUsableItem pdf_dir read it)) =
        items.countP (isMissingItem pdf_dir) +
          items.countP (isUnusableItem pdf_dir read) := by
  intro items
  induction items with
  | nil => simp
  | cons it items ih =>
      simp only [List.countP_cons, ih]
      rcases hf : find_pdf_by_sku it.sku pdf_dir with _ | f
      · simp [isUsableItem, isMissingItem, isUnusableItem, hf]
        omega
      · rcases hr : read f with _ | n
        · simp [isUsableItem, isMissingItem, isUnusableItem, hf, hr]
          omega
        · rcases n with _ | n
          · simp [isUsableItem, isMissingItem, isUnusableItem, hf, hr]
            omega
          · simp [isUsableItem, isMissingItem, isUnusableItem, hf, hr]

/-- Counting a predicate and its negation covers the list. -/
theorem countP_bool_split {α : Type} (p : α → Bool) :
    ∀ (l : List α), l.countP p + l.countP (fun a => !(p a)) = l.length := by
  intro l
  induction l with
  | nil => simp
  | cons a l ih =>
      simp only [List.countP_cons, List.length_cons]
      rcases h : p a <;> simp [h] <;> omega

/-- Claim C1 (counterexample): a non-empty list in which every item has a
locatable, valid, one-page source PDF but all quantities are 0 makes
`merge_pdfs` raise instead of returning a report. -/
theorem merge_all_usable_zero_quantity_cex :
    ([{ sku := 1, quantity := some 0, name := none }] : List Item) ≠ [] ∧
    ([{ sku := 1, quantity := some 0, name := none }] : List Item).all
      (isUsableItem ["1.pdf"] (fun _ => some 1)) = true ∧
    merge_pdfs [{ sku := 1, quantity := some 0, name := none }] ["1.pdf"]
      (fun _ => some 1) = .error .noPagesToSave := by
  refine ⟨by decide, by decide, by decide⟩

/-- Claim C1 (amended): for every non-empty list of items in which every
item has a locatable, valid source PDF with at least one page, and whose
quantities do not sum to zero, `merge_pdfs` returns the report with
`total_pages = Σ quantity`, `processed_items = total_items`,
`skipped_items = 0` and empty `missing_pdfs`; quantity-0 items are counted
in `processed_items`, contribute 0 pages and never appear in
`missing_pdfs`. -/
theorem merge_all_usable_totals (items : List Item) (pdf_dir : List String)
    (read : String → Option Nat)
    (_hne : items ≠ [])
    (hus : ∀ it ∈ items, isUsableItem pdf_dir read it = true)
    (hpos : 0 < (items.map mergeQuantity).sum) :
    merge_pdfs items pdf_dir read =
      .ok { total_items := items.length,
            total_pages := (items.map mergeQuantity).sum,
            processed_items := items.length,
            skipped_items := 0,
            missing_pdfs := [],
            pages := items.flatMap (pageContribution pdf_dir read) } := by
  have hmap : items.map (usableQuantity pdf_dir read) = items.map mergeQuantity := by
    apply List.map_congr_left
    intro it hit
    simp [usableQuantity, hus it hit]
  have hproc : items.countP (isUsableItem pdf_dir read) = items.length :=
    List.countP_eq_length.mpr (by intro it hit; simp [hus it hit])
  have hskip : items.countP (fun it => !(isUsableItem pdf_dir read it)) = 0 := by
    rw [List.countP_eq_zero]
    intro it hit
    simp [hus it hit]
  have hmiss : items.filter (isMissingItem pdf_dir) = [] := by
    rw [List.filter_eq_nil_iff]
    intro it hit
    simp [usable_not_missing (hus it hit)]
  unfold merge_pdfs
  rw [foldl_mergeStep_spec, hmap, hproc, hskip, hmiss]
  simp [initState, hpos.ne']

/-- Claim C1 (witness): a two-item instance, one item with quantity 2 and
one with quantity 0, in which the amended statement is applied. -/
theorem merge_all_usable_totals_witness :
    merge_pdfs
        [{ sku := 1, quantity := some 2, name := none },
         { sku := 2, quantity := some 0, name := none }]
        ["1.pdf", "2.pdf"] (fun _ => some 1) =
      .ok { total_items := 2, total_pages := 2, processed_items := 2,
            skipped_items := 0, missing_pdfs := [],
            pages := [("1.pdf", 0), ("1.pdf", 0)] } := by
  have h := merge_all_usable_totals
    [{ sku := 1, quantity := some 2, name := none },
     { sku := 2, quantity := some 0, name := none }]
    ["1.pdf", "2.pdf"] (fun _ => some 1)
    (by decide) (by decide) (by decide)
  rw [h]
  decide

/-- Claim C3: when the whole item loop produces zero pages `merge_pdfs`
raises (so no output file is written, whatever `skipped_items` is), and a
report is returned only when `total_pages` is positive. -/
theorem merge_zero_pages_raises (items : List Item) (pdf_dir : List String)
    (read : String → Option Nat) :
    ((items.foldl (mergeStep pdf_dir read) (initState items)).total_pages = 0 →
      merge_pdfs items pdf_dir read = .error .noPagesToSave) ∧
    (∀ st, merge_pdfs items pdf_dir read = .ok st → 0 < st.total_pages) := by
  constructor
  · intro hz
    unfold merge_pdfs
    simp [hz]
  · intro st h
    exact (merge_pdfs_ok_elim h).2

/-- Claim C3 (witness): a singleton list whose item has no locatable PDF
leaves zero pages, and the merge raises. -/
theorem merge_zero_pages_raises_witness :
    merge_pdfs [{ sku := 7, quantity := some 3, name := none }] [] (fun _ => none) =
      .error .noPagesToSave :=
  (merge_zero_pages_raises [{ sku := 7, quantity := some 3, name := none }] []
    (fun _ => none)).1 (by decide)

/-- Claim C4: in a returned report, `missing_pdfs` lists exactly the items
for which `find_pdf_by_sku` found nothing, once each in input order with the
sku/name/quantity the loop read from the item; `skipped_items` counts those
together with the located-but-unusable (zero-page or unparseable) items,
which are not added to `missing_pdfs`; `processed_items` counts only the
usable ones. -/
theorem merge_missing_accounting (items : List Item) (pdf_dir : List String)
    (read : String → Option Nat) (st : MergeState)
    (h : merge_pdfs items pdf_dir read = .ok st) :
    st.missing_pdfs = (items.filter (isMissingItem pdf_dir)).map mkMissing ∧
    st.skipped_items = items.countP (isMissingItem pdf_dir) +
      items.countP (isUnusableItem pdf_dir read) ∧
    st.processed_items = items.countP (isUsableItem pdf_dir read) := by
  obtain ⟨hst, -⟩ := merge_pdfs_ok_elim h
  rw [hst, foldl_mergeStep_spec]
  refine ⟨by simp [initState], ?_, by simp [initState]⟩
  simp only [initState, Nat.zero_add]
  exact countP_skipped_split pdf_dir read items

/-- Claim C4 (witness): one missing item, one zero-page item, one usable
item. -/
theorem merge_missing_accounting_witness :
    (MergeState.mk 3 2 1 2 [{ sku := 1, name := "a", quantity := 1 }]
        [("3.pdf", 0), ("3.pdf", 0)]).missing_pdfs =
      (([{ sku := 1, quantity := some 1, name := some "a" },
         { sku := 2, quantity := some 1, name := none },
         { sku := 3, quantity := some 2, name := none }] : List Item).filter
        (isMissingItem ["2.pdf", "3.pdf"])).map mkMissing ∧
    (MergeState.mk 3 2 1 2 [{ sku := 1, name := "a", quantity := 1 }]
        [("3.pdf", 0), ("3.pdf", 0)]).skipped_items =
      ([{ sku := 1, quantity := some 1, name := some "a" },
        { sku := 2, quantity := some 1, name := none },
        { sku := 3, quantity := some 2, name := none }] : List Item).countP
          (isMissingItem ["2.pdf", "3.pdf"]) +
      ([{ sku := 1, quantity := some 1, name := some "a" },
        { sku := 2, quantity := some 1, name := none },
        { sku := 3, quantity := some 2, name := none }] : List Item).countP
          (isUnusableItem ["2.pdf", "3.pdf"]
            (fun f => if f == "3.pdf" then some 1 else some 0)) ∧
    (MergeState.mk 3 2 1 2 [{ sku := 1, name := "a", quantity := 1 }]
        [("3.pdf", 0), ("3.pdf", 0)]).processed_items =
      ([{ sku := 1, quantity := some 1, name := some "a" },
        { sku := 2, quantity := some 1, name := none },
        { sku := 3, quantity := some 2, name := none }] : List Item).countP
          (isUsableItem ["2.pdf", "3.pdf"]
            (fun f => if f == "3.pdf" then some 1 else some 0)) :=
  merge_missing_accounting
    [{ sku := 1, quantity := some 1, name := some "a" },
     { sku := 2, quantity := some 1, name := none },
     { sku := 3, quantity := some 2, name := none }]
    ["2.pdf", "3.pdf"] (fun f => if f == "3.pdf" then some 1 else some 0)
    (MergeState.mk 3 2 1 2 [{ sku := 1, name := "a", quantity := 1 }]
      [("3.pdf", 0), ("3.pdf", 0)])
    (by decide)

/-- Claim C7: the pages of the assembled document are exactly, per usable
item in input order, `quantity` copies of page index 0 of its located file;
in particular every appended page has page index 0, so pages beyond the
first of any source document are never appended. -/
theorem merge_appends_first_page_only (items : List Item) (pdf_dir : List String)
    (read : String → Option Nat) (st : MergeState)
    (h : merge_pdfs items pdf_dir read = .ok st) :
    st.pages = items.flatMap (pageContribution pdf_dir read) ∧
    ∀ p ∈ st.pages, p.2 = 0 := by
  obtain ⟨hst, -⟩ := merge_pdfs_ok_elim h
  have hp : st.pages = items.flatMap (pageContribution pdf_dir read) := by
    rw [hst, foldl_mergeStep_spec]
    simp [initState]
  refine ⟨hp, ?_⟩
  intro p hpmem
  rw [hp, List.mem_flatMap] at hpmem
  obtain ⟨it, -, hmem⟩ := hpmem
  unfold pageContribution at hmem
  split at hmem
  · simp at hmem
  · split at hmem
    · simp at hmem
    · simp at hmem
    · rw [List.eq_of_mem_replicate hmem]

/-- Claim C7 (witness): a usable three-page source document contributes two
copies of its page 0 and nothing else. -/
theorem merge_appends_first_page_only_witness :
    (MergeState.mk 1 2 1 0 [] [("1.pdf", 0), ("1.pdf", 0)]).pages =
      ([{ sku := 1, quantity := some 2, name := none }] : List Item).flatMap
        (pageContribution ["1.pdf"] (fun _ => some 3)) ∧
    ∀ p ∈ (MergeState.mk 1 2 1 0 [] [("1.pdf", 0), ("1.pdf", 0)]).pages, p.2 = 0 :=
  merge_appends_first_page_only
    [{ sku := 1, quantity := some 2, name := none }] ["1.pdf"] (fun _ => some 3)
    (MergeState.mk 1 2 1 0 [] [("1.pdf", 0), ("1.pdf", 0)]) (by decide)

/-- Claim C8: every report returned by `merge_pdfs` satisfies
`processed_items + skipped_items = total_items` with `total_items` the
length of the input list, and has a positive `total_pages`. -/
theorem merge_report_invariant (items : List Item) (pdf_dir : List String)
    (read : String → Option Nat) (st : MergeState)
    (h : merge_pdfs items pdf_dir read = .ok st) :
    st.processed_items + st.skipped_items = st.total_items ∧
    st.total_items = items.length ∧
    0 < st.total_pages := by
  obtain ⟨hst, hpos⟩ := merge_pdfs_ok_elim h
  refine ⟨?_, ?_, hpos⟩
  · rw [hst, foldl_mergeStep_spec]
    simp only [initState, Nat.zero_add]
    exact countP_bool_split _ items
  · rw [hst, foldl_mergeStep_spec]
    simp [initState]

/-- Claim C8 (witness): the invariant checked on a concrete two-item run
with one skipped item. -/
theorem merge_report_invariant_witness :
    (MergeState.mk 2 1 1 1 [{ sku := 9, name := unknownName, quantity := 1 }]
        [("1.pdf", 0)]).processed_items +
      (MergeState.mk 2 1 1 1 [{ sku := 9, name := unknownName, quantity := 1 }]
        [("1.pdf", 0)]).skipped_items =
      (MergeState.mk 2 1 1 1 [{ sku := 9, name := unknownName, quantity := 1 }]
        [("1.pdf", 0)]).total_items ∧
    (MergeState.mk 2 1 1 1 [{ sku := 9, name := unknownName, quantity := 1 }]
        [("1.pdf", 0)]).total_items =
      ([{ sku := 1, quantity := some 1, name := none },
        { sku := 9, quantity := some 1, name := none }] : List Item).length ∧
    0 < (MergeState.mk 2 1 1 1 [{ sku := 9, name := unknownName, quantity := 1 }]
        [("1.pdf", 0)]).total_pages :=
  merge_report_invariant
    [{ sku := 1, quantity := some 1, name := none },
     { sku := 9, quantity := some 1, name := none }]
    ["1.pdf"] (fun _ => some 1)
    (MergeState.mk 2 1 1 1 [{ sku := 9, name := unknownName, quantity := 1 }]
      [("1.pdf", 0)])
    (by decide)

/-! ### OzonAPI: data model of the remote responses -/

/-- A parsed JSON response, seen through the shape checks the code performs:
`topField` is the expected field when present at top level, `resultField`
is `some inner` when a `result` wrapper is present (`inner` being the
expected field inside it, when present), and `topKeys` is
`list(result.keys())`, which the code reports when neither shape
matches. -/
structure ShapedResp (α : Type) where
  topField : Option α
  resultField : Option (Option α)
  topKeys : List String
  deriving DecidableEq, Repr

/-- A `storage_warehouse` sub-dict of a supply record (`warehouse_id` read
with a presence check). -/
structure StorageWarehouse where
  warehouse_id : Option Nat
  deriving DecidableEq, Repr

/-- One entry of a supply order's `supplies` list. -/
structure Supply where
  bundle_id : Option String
  storage_warehouse : Option StorageWarehouse
  deriving DecidableEq, Repr

/-- A `drop_off_warehouse` sub-dict (`warehouse_id` read with `.get`). -/
structure DropOffWarehouse where
  warehouse_id : Option Nat
  deriving DecidableEq, Repr

/-- One order-request record returned by the expand stage. -/
structure SupplyOrder where
  order_id : Option Nat
  supplies : Option (List Supply)
  drop_off_warehouse : Option DropOffWarehouse
  deriving DecidableEq, Repr

/-- The remote system, as a map from each request to its parsed response;
the three fields model the three endpoints the resolver calls. -/
structure Remote where
  searchResp : String → ShapedResp (List Nat)
  detailsResp : List Nat → ShapedResp (List SupplyOrder)
  bundleResp : List String → Nat → List Nat → ShapedResp (List Item)

/-- `OzonAPIError` as raised on the resolver paths modelled here.
`badShape` carries the top-level keys of the offending response, which the
corresponding message interpolates (`"Получены ключи: {list(result.keys())}"`). -/
inductive ResolutionError where
  | badShape (topKeys : List String)
  | noMatchingOrders (order_number : String)
  | noOrderDetails (order_ids : List Nat)
  | noItems (order_number : String)
  deriving DecidableEq, Repr

/-- `OzonAPI.search_supply_orders` (`src/ozon_api.py:98`–`152`): accept
`order_ids` at top level first, then under the `result` wrapper, else raise
with the observed top-level keys.  (The `if not order_ids: return []`
branch returns the same empty list and is a no-op in the model.) -/
def search_supply_orders (api : Remote) (order_number : String) :
    Except ResolutionError (List Nat) :=
  let result := api.searchResp order_number
  match result.topField with
  | some order_ids => .ok order_ids
  | none =>
      match result.resultField with
      | some (some order_ids) => .ok order_ids
      | _ => .error (.badShape result.topKeys)

/-- `OzonAPI.get_supply_order_details` (`src/ozon_api.py:154`–`193`): here
the `result`-wrapper shape is checked first, then the top-level `orders`
field, else raise with the observed top-level keys. -/
def get_supply_order_details (api : Remote) (order_ids : List Nat) :
    Except ResolutionError (List SupplyOrder) :=
  let result := api.detailsResp order_ids
  match result.resultField with
  | some (some orders) => .ok orders
  | _ =>
      match result.topField with
      | some orders => .ok orders
      | none => .error (.badShape result.topKeys)

/-- `OzonAPI.get_bundle_items` (`src/ozon_api.py:195`–`252`): the
`result`-wrapper shape first, then top-level `items`, else raise with the
observed top-level keys.  (The `total_quantity` computed there is only
logged.) -/
def get_bundle_items (api : Remote) (bundle_ids : List String)
    (dropoff_warehouse_id : Nat) (storage_warehouse_ids : List Nat) :
    Except ResolutionError (List Item) :=
  let result := api.bundleResp bundle_ids dropoff_warehouse_id storage_warehouse_ids
  match result.resultField with
  | some (some items) => .ok items
  | _ =>
      match result.topField with
      | some items => .ok items
      | none => .error (.badShape result.topKeys)

/-- Python truthiness of the optional `dropoff_warehouse_id`
(`if not dropoff_warehouse_id`): falsy when absent or zero. -/
def optNatFalsy : Option Nat → Bool
  | none => true
  | some 0 => true
  | some (_ + 1) => false

/-- One iteration of the `for supply in order['supplies']` loop
(`src/ozon_api.py:314`–`344`): skip (contribute nothing) when `bundle_id`
is absent, when the drop-off warehouse id is falsy, or when no storage
warehouse id was extracted; otherwise fetch the bundle contents. -/
def processSupply (api : Remote) (dropoff_warehouse_id : Option Nat)
    (supply : Supply) : Except ResolutionError (List Item) :=
  match supply.bundle_id with
  | none => .ok []
  | some bundle_id =>
      let storage_warehouse_ids : List Nat :=
        match supply.storage_warehouse with
        | some sw =>
            match sw.warehouse_id with
            | some w => [w]
            | none => []
        | none => []
      if optNatFalsy dropoff_warehouse_id then .ok []
      else if storage_warehouse_ids.isEmpty then .ok []
      else get_bundle_items api [bundle_id] (dropoff_warehouse_id.getD 0)
        storage_warehouse_ids

/-- `dropoff_warehouse_id` extraction (`src/ozon_api.py:308`–`311`):
`None` unless the order has a `drop_off_warehouse` dict, else its
`warehouse_id` read with `.get`. -/
def dropoffOf (order : SupplyOrder) : Option Nat :=
  match order.drop_off_warehouse with
  | some w => w.warehouse_id
  | none => none

/-- One iteration of the `for order in orders` loop
(`src/ozon_api.py:298`–`344`): an order-request with `supplies` absent or
empty is skipped; otherwise its supplies contribute in order, the whole
loop aborting on the first bundle-stage error. -/
def processOrder (api : Remote) (order : SupplyOrder) :
    Except ResolutionError (List Item) :=
  match order.supplies with
  | none => .ok []
  | some supplies =>
      if supplies.isEmpty then .ok []
      else
        match supplies.mapM (processSupply api (dropoffOf order)) with
        | .error e => .error e
        | .ok lists => .ok lists.flatten

/-- `total_quantity = sum(item.get('quantity', 0) for item in all_items)`. -/
def resolverQuantity (item : Item) : Nat := item.quantity.getD 0

/-- The resolver's quantity total over an item list. -/
def totalQuantityOf (items : List Item) : Nat :=
  (items.map resolverQuantity).sum

/-- The resolver's result dict. -/
structure ResolvedOrder where
  order_number : String
  order_ids : List Nat
  items : List Item
  total_unique : Nat
  total_quantity : Nat
  deriving DecidableEq, Repr

/-- Accumulation step of `get_supply_items_by_order_number`
(`src/ozon_api.py:296`–`363`): collect the bundle contents of every
processed sub-supply across all order-requests in enumeration order
(`all_items.extend(items)`), fail if the accumulated flat list is empty,
else return the `ResolvedOrder` with `total_unique`/`total_quantity`
computed from it. -/
def resolveFromOrders (api : Remote) (order_number : String)
    (order_ids : List Nat) (orders : List SupplyOrder) :
    Except ResolutionError ResolvedOrder :=
  match orders.mapM (processOrder api) with
  | .error e => .error e
  | .ok lists =>
      let all_items := lists.flatten
      if all_items.isEmpty then .error (.noItems order_number)
      else .ok { order_number := order_number,
                 order_ids := order_ids,
                 items := all_items,
                 total_unique := all_items.length,
                 total_quantity := totalQuantityOf all_items }

/-- Expand step of `get_supply_items_by_order_number`
(`src/ozon_api.py:288`–`292`): fetch the order details, fail when none are
returned, then accumulate. -/
def resolveFromIds (api : Remote) (order_number : String)
    (order_ids : List Nat) : Except ResolutionError ResolvedOrder :=
  match get_supply_order_details api order_ids with
  | .error e => .error e
  | .ok orders =>
      if orders.isEmpty then .error (.noOrderDetails order_ids)
      else resolveFromOrders api order_number order_ids orders

/-- `OzonAPI.get_supply_items_by_order_number` (`src/ozon_api.py:254`–`370`):
search, fail on an empty id list, then expand and accumulate. -/
def get_supply_items_by_order_number (api : Remote) (order_number : String) :
    Except ResolutionError ResolvedOrder :=
  match search_supply_orders api order_number with
  | .error e => .error e
  | .ok order_ids =>
      if order_ids.isEmpty then .error (.noMatchingOrders order_number)
      else resolveFromIds api order_number order_ids

/-- Shape tolerance of one stage: the stage succeeds whenever the expected
field is present at top level or nested one level under the `result`
wrapper, and when neither shape matches it fails with a `badShape` error
carrying exactly the top-level keys of the response (the keys the raised
message interpolates). -/
def shapeTolerant {α : Type} (resp : ShapedResp α)
    (out : Except ResolutionError α) : Prop :=
  (((∃ v, resp.topField = some v) ∨ (∃ v, resp.resultField = some (some v))) →
    ∃ v, out = .ok v) ∧
  (resp.topField = none → (∀ v, resp.resultField ≠ some (some v)) →
    out = .error (.badShape resp.topKeys))

/-- Claim C5: each of the three resolver stages accepts the expected field
at the top level of the response or nested one level under the `result`
wrapper, and when neither shape matches it raises a `ResolutionError`
carrying the list of top-level keys actually present in the response. -/
theorem stage_shape_tolerance (api : Remote) (order_number : String)
    (order_ids : List Nat) (bundle_ids : List String)
    (dropoff_warehouse_id : Nat) (storage_warehouse_ids : List Nat) :
    shapeTolerant (api.searchResp order_number)
      (search_supply_orders api order_number) ∧
    shapeTolerant (api.detailsResp order_ids)
      (get_supply_order_details api order_ids) ∧
    shapeTolerant
      (api.bundleResp bundle_ids dropoff_warehouse_id storage_warehouse_ids)
      (get_bundle_items api bundle_ids dropoff_warehouse_id
        storage_warehouse_ids) := by
  refine ⟨?_, ?_, ?_⟩
  · rcases hresp : api.searchResp order_number with ⟨top, res, keys⟩
    unfold shapeTolerant search_supply_orders
    rw [hresp]
    rcases top with _ | v
    · rcases res with _ | ⟨_ | v⟩
      · exact ⟨by rintro (⟨v, hv⟩ | ⟨v, hv⟩) <;> simp at hv, fun _ _ => rfl⟩
      · exact ⟨by rintro (⟨v, hv⟩ | ⟨v, hv⟩) <;> simp at hv, fun _ _ => rfl⟩
      · exact ⟨fun _ => ⟨v, rfl⟩, fun _ hall => absurd rfl (hall v)⟩
    · exact ⟨fun _ => ⟨v, rfl⟩, fun ht _ => by simp at ht⟩
  · rcases hresp : api.detailsResp order_ids with ⟨top, res, keys⟩
    unfold shapeTolerant get_supply_order_details
    rw [hresp]
    rcases res with _ | ⟨_ | v⟩
    · rcases top with _ | v
      · exact ⟨by rintro (⟨v, hv⟩ | ⟨v, hv⟩) <;> simp at hv, fun _ _ => rfl⟩
      · exact ⟨fun _ => ⟨v, rfl⟩, fun ht _ => by simp at ht⟩
    · rcases top with _ | v
      · exact ⟨by rintro (⟨v, hv⟩ | ⟨v, hv⟩) <;> simp at hv, fun _ _ => rfl⟩
      · exact ⟨fun _ => ⟨v, rfl⟩, fun ht _ => by simp at ht⟩
    · exact ⟨fun _ => ⟨v, rfl⟩, fun _ hall => absurd rfl (hall v)⟩
  · rcases hresp : api.bundleResp bundle_ids dropoff_warehouse_id
      storage_warehouse_ids with ⟨top, res, keys⟩
    unfold shapeTolerant get_bundle_items
    rw [hresp]
    rcases res with _ | ⟨_ | v⟩
    · rcases top with _ | v
      · exact ⟨by rintro (⟨v, hv⟩ | ⟨v, hv⟩) <;> simp at hv, fun _ _ => rfl⟩
      · exact ⟨fun _ => ⟨v, rfl⟩, fun ht _ => by simp at ht⟩
    · rcases top with _ | v
      · exact ⟨by rintro (⟨v, hv⟩ | ⟨v, hv⟩) <;> simp at hv, fun _ _ => rfl⟩
      · exact ⟨fun _ => ⟨v, rfl⟩, fun ht _ => by simp at ht⟩
    · exact ⟨fun _ => ⟨v, rfl⟩, fun _ hall => absurd rfl (hall v)⟩

/-- A remote whose search response has neither expected shape. -/
def apiC5w : Remote :=
  { searchResp := fun _ => ⟨none, none, ["code", "message"]⟩,
    detailsResp := fun _ => ⟨none, some (some []), ["result"]⟩,
    bundleResp := fun _ _ _ => ⟨some [], none, ["items"]⟩ }

/-- Claim C5 (witness): the badly shaped search response makes the search
stage fail with the observed top-level keys in the error. -/
theorem stage_shape_tolerance_witness :
    search_supply_orders apiC5w "X" = .error (.badShape ["code", "message"]) :=
  (stage_shape_tolerance apiC5w "X" [] [] 0 []).1.2 rfl
    (fun _ h => Option.noConfusion h)

/-- Boolean test for the error case of an `Except`. -/
def isError {ε α : Type} : Except ε α → Bool
  | .error _ => true
  | .ok _ => false

/-- `mapM` over `Except` succeeds when the function succeeds on every
element. -/
theorem mapM_ok_of_all {α β : Type} (f : α → Except ResolutionError β) :
    ∀ (l : List α), (∀ a ∈ l, ∃ v, f a = .ok v) → ∃ vs, l.mapM f = .ok vs := by
  intro l
  induction l with
  | nil => exact fun _ => ⟨[], rfl⟩
  | cons a l ih =>
      intro h
      obtain ⟨v, hv⟩ := h a (List.mem_cons_self a l)
      obtain ⟨vs, hvs⟩ := ih (fun b hb => h b (List.mem_cons_of_mem a hb))
      refine ⟨v :: vs, ?_⟩
      rw [List.mapM_cons, hv, hvs]
      rfl

/-- When every bundle query is well-shaped, processing a sub-supply never
fails (it either skips or returns the bundle contents). -/
theorem processSupply_ok (api : Remote)
    (hb : ∀ b d w, ∃ v, get_bundle_items api b d w = .ok v)
    (dropoff_warehouse_id : Option Nat) (s : Supply) :
    ∃ v, processSupply api dropoff_warehouse_id s = .ok v := by
  rcases s with ⟨bid, sw⟩
  rcases bid with _ | bid
  · exact ⟨[], by simp [processSupply]⟩
  · by_cases hd : optNatFalsy dropoff_warehouse_id = true
    · exact ⟨[], by simp [processSupply, hd]⟩
    · rcases sw with _ | ⟨wid⟩
      · exact ⟨[], by simp [processSupply, hd]⟩
      · rcases wid with _ | w
        · exact ⟨[], by simp [processSupply, hd]⟩
        · obtain ⟨v, hv⟩ := hb [bid] (dropoff_warehouse_id.getD 0) [w]
          exact ⟨v, by simp [processSupply, hd, hv]⟩

/-- When every bundle query is well-shaped, processing an order-request
never fails. -/
theorem processOrder_ok (api : Remote)
    (hb : ∀ b d w, ∃ v, get_bundle_items api b d w = .ok v)
    (order : SupplyOrder) : ∃ v, processOrder api order = .ok v := by
  rcases hsup : order.supplies with _ | sups
  · exact ⟨[], by simp [processOrder, hsup]⟩
  · by_cases he : sups.isEmpty = true
    · exact ⟨[], by simp [processOrder, hsup, he]⟩
    · obtain ⟨vs, hvs⟩ :=
        mapM_ok_of_all (processSupply api (dropoffOf order)) sups
          (fun s _ => processSupply_ok api hb (dropoffOf order) s)
      refine ⟨vs.flatten, ?_⟩
      unfold processOrder
      rw [hsup]
      show (if sups.isEmpty then Except.ok [] else
        match sups.mapM (processSupply api (dropoffOf order)) with
        | .error e => .error e
        | .ok lists => .ok lists.flatten) = Except.ok vs.flatten
      rw [if_neg he, hvs]

/-! ### Evaluation lemmas for the resolver pipeline, one per exit path -/

theorem resolve_search_error {api : Remote} {order_number : String}
    {e : ResolutionError}
    (hs : search_supply_orders api order_number = .error e) :
    get_supply_items_by_order_number api order_number = .error e := by
  unfold get_supply_items_by_order_number
  rw [hs]

theorem resolve_search_empty {api : Remote} {order_number : String}
    {order_ids : List Nat}
    (hs : search_supply_orders api order_number = .ok order_ids)
    (hide : order_ids.isEmpty = true) :
    get_supply_items_by_order_number api order_number =
      .error (.noMatchingOrders order_number) := by
  unfold get_supply_items_by_order_number
  rw [hs]
  show (if order_ids.isEmpty then
      Except.error (ResolutionError.noMatchingOrders order_number)
    else resolveFromIds api order_number order_ids) =
    Except.error (ResolutionError.noMatchingOrders order_number)
  rw [if_pos hide]

theorem resolve_details_error {api : Remote} {order_number : String}
    {order_ids : List Nat} {e : ResolutionError}
    (hs : search_supply_orders api order_number = .ok order_ids)
    (hide : order_ids.isEmpty = false)
    (hd : get_supply_order_details api order_ids = .error e) :
    get_supply_items_by_order_number api order_number = .error e := by
  unfold get_supply_items_by_order_number
  rw [hs]
  show (if order_ids.isEmpty then
      Except.error (ResolutionError.noMatchingOrders order_number)
    else resolveFromIds api order_number order_ids) = Except.error e
  rw [if_neg (by simp [hide])]
  unfold resolveFromIds
  rw [hd]

theorem resolve_details_empty {api : Remote} {order_number : String}
    {order_ids : List Nat} {orders : List SupplyOrder}
    (hs : search_supply_orders api order_number = .ok order_ids)
    (hide : order_ids.isEmpty = false)
    (hd : get_supply_order_details api order_ids = .ok orders)
    (hoe : orders.isEmpty = true) :
    get_supply_items_by_order_number api order_number =
      .error (.noOrderDetails order_ids) := by
  unfold get_supply_items_by_order_number
  rw [hs]
  show (if order_ids.isEmpty then
      Except.error (ResolutionError.noMatchingOrders order_number)
    else resolveFromIds api order_number order_ids) =
    Except.error (ResolutionError.noOrderDetails order_ids)
  rw [if_neg (by simp [hide])]
  unfold resolveFromIds
  rw [hd]
  show (if orders.isEmpty then
      Except.error (ResolutionError.noOrderDetails order_ids)
    else resolveFromOrders api order_number order_ids orders) =
    Except.error (ResolutionError.noOrderDetails order_ids)
  rw [if_pos hoe]

theorem resolve_mapM_error {api : Remote} {order_number : String}
    {order_ids : List Nat} {orders : List SupplyOrder} {e : ResolutionError}
    (hs : search_supply_orders api order_number = .ok order_ids)
    (hide : order_ids.isEmpty = false)
    (hd : get_supply_order_details api order_ids = .ok orders)
    (hoe : orders.isEmpty = false)
    (hm : orders.mapM (processOrder api) = .error e) :
    get_supply_items_by_order_number api order_number = .error e := by
  unfold get_supply_items_by_order_number
  rw [hs]
  show (if order_ids.isEmpty then
      Except.error (ResolutionError.noMatchingOrders order_number)
    else resolveFromIds api order_number order_ids) = Except.error e
  rw [if_neg (by simp [hide])]
  unfold resolveFromIds
  rw [hd]
  show (if orders.isEmpty then
      Except.error (ResolutionError.noOrderDetails order_ids)
    else resolveFromOrders api order_number order_ids orders) = Except.error e
  rw [if_neg (by simp [hoe])]
  unfold resolveFromOrders
  rw [hm]

theorem resolve_items_empty {api : Remote} {order_number : String}
    {order_ids : List Nat} {orders : List SupplyOrder}
    {lists : List (List Item)}
    (hs : search_supply_orders api order_number = .ok order_ids)
    (hide : order_ids.isEmpty = false)
    (hd : get_supply_order_details api order_ids = .ok orders)
    (hoe : orders.isEmpty = false)
    (hm : orders.mapM (processOrder api) = .ok lists)
    (hfe : lists.flatten.isEmpty = true) :
    get_supply_items_by_order_number api order_number =
      .error (.noItems order_number) := by
  unfold get_supply_items_by_order_number
  rw [hs]
  show (if order_ids.isEmpty then
      Except.error (ResolutionError.noMatchingOrders order_number)
    else resolveFromIds api order_number order_ids) =
    Except.error (ResolutionError.noItems order_number)
  rw [if_neg (by simp [hide])]
  unfold resolveFromIds
  rw [hd]
  show (if orders.isEmpty then
      Except.error (ResolutionError.noOrderDetails order_ids)
    else resolveFromOrders api order_number order_ids orders) =
    Except.error (ResolutionError.noItems order_number)
  rw [if_neg (by simp [hoe])]
  unfold resolveFromOrders
  rw [hm]
  show (if lists.flatten.isEmpty then
      Except.error (ResolutionError.noItems order_number)
    else Except.ok ({ order_number := order_number, order_ids := order_ids,
                      items := lists.flatten,
                      total_unique := lists.flatten.length,
                      total_quantity := totalQuantityOf lists.flatten } :
                     ResolvedOrder)) =
    Except.error (ResolutionError.noItems order_number)
  rw [if_pos hfe]

theorem resolve_items_ok {api : Remote} {order_number : String}
    {order_ids : List Nat} {orders : List SupplyOrder}
    {lists : List (List Item)}
    (hs : search_supply_orders api order_number = .ok order_ids)
    (hide : order_ids.isEmpty = false)
    (hd : get_supply_order_details api order_ids = .ok orders)
    (hoe : orders.isEmpty = false)
    (hm : orders.mapM (processOrder api) = .ok lists)
    (hfe : lists.flatten.isEmpty = false) :
    get_supply_items_by_order_number api order_number =
      .ok { order_number := order_number, order_ids := order_ids,
            items := lists.flatten, total_unique := lists.flatten.length,
            total_quantity := totalQuantityOf lists.flatten } := by
  unfold get_supply_items_by_order_number
  rw [hs]
  show (if order_ids.isEmpty then
      Except.error (ResolutionError.noMatchingOrders order_number)
    else resolveFromIds api order_number order_ids) = _
  rw [if_neg (by simp [hide])]
  unfold resolveFromIds
  rw [hd]
  show (if orders.isEmpty then
      Except.error (ResolutionError.noOrderDetails order_ids)
    else resolveFromOrders api order_number order_ids orders) = _
  rw [if_neg (by simp [hoe])]
  unfold resolveFromOrders
  rw [hm]
  show (if lists.flatten.isEmpty then
      Except.error (ResolutionError.noItems order_number)
    else Except.ok ({ order_number := order_number, order_ids := order_ids,
                      items := lists.flatten,
                      total_unique := lists.flatten.length,
                      total_quantity := totalQuantityOf lists.flatten } :
                     ResolvedOrder)) = _
  rw [if_neg (by simp [hfe])]

/-- Rewriting of `¬ (b = true)` into a boolean equation. -/
theorem bool_not_true {b : Bool} (h : ¬(b = true)) : b = false := by
  cases b
  · rfl
  · exact absurd rfl h

/-- Inversion of a successful resolve: every stage succeeded, the id,
order and item lists are non-empty, and the result is built from the
accumulated flat item list. -/
theorem resolve_ok_elim {api : Remote} {order_number : String}
    {r : ResolvedOrder}
    (h : get_supply_items_by_order_number api order_number = .ok r) :
    ∃ order_ids orders lists,
      search_supply_orders api order_number = .ok order_ids ∧
      order_ids.isEmpty = false ∧
      get_supply_order_details api order_ids = .ok orders ∧
      orders.isEmpty = false ∧
      orders.mapM (processOrder api) = .ok lists ∧
      lists.flatten.isEmpty = false ∧
      r = { order_number := order_number, order_ids := order_ids,
            items := lists.flatten, total_unique := lists.flatten.length,
            total_quantity := totalQuantityOf lists.flatten } := by
  unfold get_supply_items_by_order_number at h
  split at h
  · exact absurd h (by simp)
  · rename_i order_ids hs
    by_cases hide : order_ids.isEmpty = true
    · rw [if_pos hide] at h
      exact absurd h (by simp)
    · rw [if_neg hide] at h
      unfold resolveFromIds at h
      split at h
      · exact absurd h (by simp)
      · rename_i orders hd
        by_cases hoe : orders.isEmpty = true
        · rw [if_pos hoe] at h
          exact absurd h (by simp)
        · rw [if_neg hoe] at h
          unfold resolveFromOrders at h
          split at h
          · exact absurd h (by simp)
          · rename_i lists hm
            simp only [] at h
            by_cases hfe : lists.flatten.isEmpty = true
            · rw [if_pos hfe] at h
              exact absurd h (by simp)
            · rw [if_neg hfe] at h
              exact ⟨order_ids, orders, lists, hs, bool_not_true hide, hd,
                bool_not_true hoe, hm, bool_not_true hfe,
                (Except.ok.inj h).symm⟩

/-- A remote whose search response has neither expected shape, while the
other two endpoints are well-shaped. -/
def apiC2bad : Remote :=
  { searchResp := fun _ => ⟨none, none, ["code"]⟩,
    detailsResp := fun _ => ⟨some [], none, ["orders"]⟩,
    bundleResp := fun _ _ _ => ⟨some [], none, ["items"]⟩ }

/-- Claim C2 (counterexample): a shape failure in the search stage makes
`resolve` raise although the search stage yields no empty id list, the
expand stage yields no empty detail list, and no item list is accumulated —
so the "exactly when" of the claim fails as stated. -/
theorem resolve_error_without_empty_stage_cex :
    isError (get_supply_items_by_order_number apiC2bad "X") = true ∧
    ¬(search_supply_orders apiC2bad "X" = .ok [] ∨
      (∃ ids, search_supply_orders apiC2bad "X" = .ok ids ∧ ids ≠ [] ∧
        get_supply_order_details apiC2bad ids = .ok []) ∨
      (∃ ids orders lists, search_supply_orders apiC2bad "X" = .ok ids ∧
        ids ≠ [] ∧ get_supply_order_details apiC2bad ids = .ok orders ∧
        orders ≠ [] ∧ orders.mapM (processOrder apiC2bad) = .ok lists ∧
        lists.flatten = [])) := by
  constructor
  · decide
  · have hse : search_supply_orders apiC2bad "X" = .error (.badShape ["code"]) := rfl
    rintro (h | ⟨ids, h, -, -⟩ | ⟨ids, orders, lists, h, -⟩)
    · rw [hse] at h
      exact Except.noConfusion h
    · rw [hse] at h
      exact Except.noConfusion h
    · rw [hse] at h
      exact Except.noConfusion h

/-- Claim C2 (amended): `resolve` never returns a `ResolvedOrder` with an
empty items list; and provided every stage response is well-shaped (no
stage itself raises), `resolve` raises exactly when the search stage yields
an empty id list, the expand stage yields no order details, or the item
list accumulated over all sub-supplies is empty — sub-supplies missing a
bundle id, drop-off warehouse id or storage warehouse id, and
order-requests with no supply sub-records, are skipped without causing
failure (they contribute nothing, so an error arises only through the
accumulated list staying empty). -/
theorem resolve_empty_failure_characterization (api : Remote)
    (order_number : String) :
    (∀ r, get_supply_items_by_order_number api order_number = .ok r →
      r.items ≠ []) ∧
    ((∀ on2, ∃ v, search_supply_orders api on2 = .ok v) →
     (∀ ids, ∃ v, get_supply_order_details api ids = .ok v) →
     (∀ b d w, ∃ v, get_bundle_items api b d w = .ok v) →
     (isError (get_supply_items_by_order_number api order_number) = true ↔
       (search_supply_orders api order_number = .ok [] ∨
        (∃ ids, search_supply_orders api order_number = .ok ids ∧ ids ≠ [] ∧
          get_supply_order_details api ids = .ok []) ∨
        (∃ ids orders lists,
          search_supply_orders api order_number = .ok ids ∧ ids ≠ [] ∧
          get_supply_order_details api ids = .ok orders ∧ orders ≠ [] ∧
          orders.mapM (processOrder api) = .ok lists ∧
          lists.flatten = [])))) := by
  constructor
  · intro r h
    obtain ⟨ids, orders, lists, hs, hide, hd, hoe, hm, hfe, hr⟩ :=
      resolve_ok_elim h
    subst hr
    intro hcon
    simp only [] at hcon
    rw [hcon] at hfe
    simp at hfe
  · intro hsok hdok hbok
    constructor
    · intro herr
      obtain ⟨ids, hs⟩ := hsok order_number
      by_cases hide : ids.isEmpty = true
      · left
        have hnil : ids = [] := by
          cases ids with
          | nil => rfl
          | cons a l => simp at hide
        rw [hnil] at hs
        exact hs
      · obtain ⟨orders, hd⟩ := hdok ids
        by_cases hoe : orders.isEmpty = true
        · right
          left
          have honil : orders = [] := by
            cases orders with
            | nil => rfl
            | cons a l => simp at hoe
          refine ⟨ids, hs, ?_, ?_⟩
          · intro hcon
            rw [hcon] at hide
            simp at hide
          · rw [honil] at hd
            exact hd
        · obtain ⟨lists, hm⟩ :=
            mapM_ok_of_all (processOrder api) orders
              (fun o _ => processOrder_ok api hbok o)
          by_cases hfe : lists.flatten.isEmpty = true
          · right
            right
            refine ⟨ids, orders, lists, hs, ?_, hd, ?_, hm, ?_⟩
            · intro hcon
              rw [hcon] at hide
              simp at hide
            · intro hcon
              rw [hcon] at hoe
              simp at hoe
            · cases hl : lists.flatten with
              | nil => rfl
              | cons a l =>
                  rw [hl] at hfe
                  simp at hfe
          · exfalso
            have hok := resolve_items_ok hs (bool_not_true hide) hd
              (bool_not_true hoe) hm (bool_not_true hfe)
            rw [hok] at herr
            simp [isError] at herr
    · intro hcond
      rcases hcond with h1 | ⟨ids, hs, hne, hd⟩ |
        ⟨ids, orders, lists, hs, hne, hd, hone, hm, hflat⟩
      · rw [resolve_search_empty h1 rfl]
        rfl
      · have hide : ids.isEmpty = false := by
          cases ids with
          | nil => exact absurd rfl hne
          | cons a l => rfl
        rw [resolve_details_empty hs hide hd rfl]
        rfl
      · have hide : ids.isEmpty = false := by
          cases ids with
          | nil => exact absurd rfl hne
          | cons a l => rfl
        have hoe : orders.isEmpty = false := by
          cases orders with
          | nil => exact absurd rfl hone
          | cons a l => rfl
        have hfe : lists.flatten.isEmpty = true := by
          rw [hflat]
          rfl
        rw [resolve_items_empty hs hide hd hoe hm hfe]
        rfl

/-- A remote that always answers well-shaped but empty search results. -/
def apiC2empty : Remote :=
  { searchResp := fun _ => ⟨some [], none, ["order_ids"]⟩,
    detailsResp := fun _ => ⟨some [], none, ["orders"]⟩,
    bundleResp := fun _ _ _ => ⟨some [], none, ["items"]⟩ }

/-- A remote resolving one order-request with one sub-supply of one item. -/
def apiC2items : Remote :=
  { searchResp := fun _ => ⟨some [1], none, ["order_ids"]⟩,
    detailsResp := fun _ =>
      ⟨some [{ order_id := some 1,
               supplies := some [{ bundle_id := some "b",
                                   storage_warehouse :=
                                     some { warehouse_id := some 7 } }],
               drop_off_warehouse := some { warehouse_id := some 5 } }],
       none, ["orders"]⟩,
    bundleResp := fun _ _ _ =>
      ⟨some [{ sku := 111, quantity := some 2, name := none }], none,
       ["items"]⟩ }

/-- The resolved order produced by `apiC2items`. -/
def rC2 : ResolvedOrder :=
  { order_number := "Y", order_ids := [1],
    items := [{ sku := 111, quantity := some 2, name := none }],
    total_unique := 1, total_quantity := 2 }

/-- Claim C2 (witness): a successful resolve has non-empty items, and with
all stages well-shaped an empty search id list makes resolve raise. -/
theorem resolve_empty_failure_characterization_witness :
    rC2.items ≠ [] ∧
    isError (get_supply_items_by_order_number apiC2empty "X") = true :=
  ⟨(resolve_empty_failure_characterization apiC2items "Y").1 rC2 (by decide),
   ((resolve_empty_failure_characterization apiC2empty "X").2
      (fun _ => ⟨[], rfl⟩) (fun _ => ⟨[], rfl⟩)
      (fun _ _ _ => ⟨[], rfl⟩)).mpr (Or.inl rfl)⟩

/-- Claim C9: every `ResolvedOrder` returned by resolve has `total_unique`
equal to the length of its items and `total_quantity` the sum of their
quantities, and its items are the flat concatenation, in enumeration order,
of the per-order-request item lists (themselves the concatenation of the
bundle contents of each processed sub-supply), with no deduplication. -/
theorem resolve_totals_and_concatenation (api : Remote)
    (order_number : String) (r : ResolvedOrder)
    (h : get_supply_items_by_order_number api order_number = .ok r) :
    r.total_unique = r.items.length ∧
    r.total_quantity = totalQuantityOf r.items ∧
    ∃ order_ids orders lists,
      search_supply_orders api order_number = .ok order_ids ∧
      get_supply_order_details api order_ids = .ok orders ∧
      orders.mapM (processOrder api) = .ok lists ∧
      r.items = lists.flatten := by
  obtain ⟨ids, orders, lists, hs, -, hd, -, hm, -, hr⟩ := resolve_ok_elim h
  subst hr
  exact ⟨rfl, rfl, ids, orders, lists, hs, hd, hm, rfl⟩

/-- A remote with one order-request holding two identical sub-supplies,
each of whose bundles contains the same single SKU. -/
def apiC9 : Remote :=
  { searchResp := fun _ => ⟨some [1], none, ["order_ids"]⟩,
    detailsResp := fun _ =>
      ⟨some [{ order_id := some 1,
               supplies := some [{ bundle_id := some "b",
                                   storage_warehouse :=
                                     some { warehouse_id := some 7 } },
                                 { bundle_id := some "b",
                                   storage_warehouse :=
                                     some { warehouse_id := some 7 } }],
               drop_off_warehouse := some { warehouse_id := some 5 } }],
       none, ["orders"]⟩,
    bundleResp := fun _ _ _ =>
      ⟨some [{ sku := 111, quantity := some 2, name := none }], none,
       ["items"]⟩ }

/-- The resolved order produced by `apiC9`: the duplicate SKU appears
twice, once per sub-supply, each with its own quantity. -/
def rC9 : ResolvedOrder :=
  { order_number := "Y", order_ids := [1],
    items := [{ sku := 111, quantity := some 2, name := none },
              { sku := 111, quantity := some 2, name := none }],
    total_unique := 2, total_quantity := 4 }

/-- Claim C9 (witness): the totals invariant applied to the duplicate-SKU
resolution. -/
theorem resolve_totals_and_concatenation_witness :
    rC9.total_unique = rC9.items.length ∧
    rC9.total_quantity = totalQuantityOf rC9.items := by
  have h := resolve_totals_and_concatenation apiC9 "Y" rC9 (by decide)
  exact ⟨h.1, h.2.1⟩

/-- A remote resolving to a single item dict that lacks the quantity key. -/
def apiC10 : Remote :=
  { searchResp := fun _ => ⟨some [1], none, ["order_ids"]⟩,
    detailsResp := fun _ =>
      ⟨some [{ order_id := some 1,
               supplies := some [{ bundle_id := some "b",
                                   storage_warehouse :=
                                     some { warehouse_id := some 7 } }],
               drop_off_warehouse := some { warehouse_id := some 5 } }],
       none, ["orders"]⟩,
    bundleResp := fun _ _ _ =>
      ⟨some [{ sku := 5, quantity := none, name := none }], none,
       ["items"]⟩ }

/-- The resolved order produced by `apiC10`: its quantityless item counts
as 0 in `total_quantity`. -/
def rC10 : ResolvedOrder :=
  { order_number := "Z", order_ids := [1],
    items := [{ sku := 5, quantity := none, name := none }],
    total_unique := 1, total_quantity := 0 }

/-- The merge report for `rC10.items`: the same quantityless item counts
as 1 page. -/
def stC10 : MergeState :=
  { total_items := 1, total_pages := 1, processed_items := 1,
    skipped_items := 0, missing_pdfs := [], pages := [("5.pdf", 0)] }

/-- Claim C10: an item dict lacking the quantity key counts as quantity 1
in `merge_pdfs` (one page appended, 1 added to `total_pages`) but as 0 in
the resolver's `total_quantity`; on a concrete such item list the
resolver's `total_quantity` (0) is strictly below the merge's
`total_pages` (1). -/
theorem quantity_default_divergence :
    (∀ item : Item, item.quantity = none →
      mergeQuantity item = 1 ∧ resolverQuantity item = 0) ∧
    (∀ (pdf_dir : List String) (read : String → Option Nat)
        (st : MergeState) (item : Item) (f : String) (n : Nat),
      item.quantity = none →
      find_pdf_by_sku item.sku pdf_dir = some f →
      read f = some (n + 1) →
      (mergeStep pdf_dir read st item).total_pages = st.total_pages + 1 ∧
      (mergeStep pdf_dir read st item).pages = st.pages ++ [(f, 0)]) ∧
    (get_supply_items_by_order_number apiC10 "Z" = .ok rC10 ∧
     merge_pdfs rC10.items ["5.pdf"] (fun _ => some 1) = .ok stC10 ∧
     rC10.total_quantity < stC10.total_pages) := by
  refine ⟨?_, ?_, by decide, by decide, by decide⟩
  · intro item h
    exact ⟨by simp [mergeQuantity, h], by simp [resolverQuantity, h]⟩
  · intro pdf_dir read st item f n hq hf hr
    constructor
    · simp [mergeStep, hf, hr, mergeQuantity, hq]
    · simp [mergeStep, hf, hr, mergeQuantity, hq]

/-- Claim C10 (witness): the defaults applied to the concrete quantityless
item and its merge step. -/
theorem quantity_default_divergence_witness :
    (mergeQuantity { sku := 5, quantity := none, name := none } = 1 ∧
     resolverQuantity { sku := 5, quantity := none, name := none } = 0) ∧
    ((mergeStep ["5.pdf"] (fun _ => some 1)
        (initState [{ sku := 5, quantity := none, name := none }])
        { sku := 5, quantity := none, name := none }).total_pages =
      (initState [{ sku := 5, quantity := none, name := none }]).total_pages
        + 1 ∧
     (mergeStep ["5.pdf"] (fun _ => some 1)
        (initState [{ sku := 5, quantity := none, name := none }])
        { sku := 5, quantity := none, name := none }).pages =
      (initState [{ sku := 5, quantity := none, name := none }]).pages
        ++ [("5.pdf", 0)]) :=
  ⟨quantity_default_divergence.1 { sku := 5, quantity := none, name := none }
     rfl,
   quantity_default_divergence.2.1 ["5.pdf"] (fun _ => some 1)
     (initState [{ sku := 5, quantity := none, name := none }])
     { sku := 5, quantity := none, name := none } "5.pdf" 0 rfl (by decide)
     rfl⟩

end BPA
